import Mathlib

/-!
Verification of `act/utils/graph_datamodel.py` (act-utils).

Shallow embedding: the raw JSON payloads fetched from the ACT platform are
modelled as Lean data, Python truthiness is made explicit, and the generator
properties `objects` / `facts`, the `__eq__` comparison, `load`, and the
`run` pipeline (snapshot diffing plus the three graphviz projections) become
pure Lean functions.  Network transport, graphviz rendering and Confluence
upload are external sinks; `run` is modelled from the point where both HTTP
responses are available, and its observable actions are recorded as an event
trace.
-/

namespace GraphDatamodel

/-- One entry of the object-type catalog's `data` array, as seen by
`DataModel.objects`.  Python distinguishes falsy entries (`None`, `{}`) from
truthy dicts; a truthy dict either has a `"name"` key (value modelled as the
string it holds, possibly `""`) or lacks it (so `obj["name"]` raises). -/
inductive ObjEntry where
  | falsy : ObjEntry
  | dict : Option String → ObjEntry
deriving DecidableEq, Repr

/-- One record of a fact type's `relevantObjectBindings` array.
`dest` is `none` when `binding["destinationObjectType"]` is falsy (the code
then substitutes Python `None`), and `some s` when it is a truthy dict whose
`"name"` field holds `s` (possibly the empty string). -/
structure Binding where
  source : String
  dest : Option String
  bidirectional : Bool
deriving DecidableEq, Repr

/-- One entry of the fact-type catalog's `data` array: either a falsy entry
(`None`), or a record with a `name` and a list of bindings (an absent or
`null` `relevantObjectBindings` is modelled as the empty list, which Python
treats identically: `if not bindings: continue`). -/
inductive FactEntry where
  | falsy : FactEntry
  | entry : String → List Binding → FactEntry
deriving DecidableEq, Repr

/-- The tuple yielded by `DataModel.facts`:
`(fact name, source type name, destination type name or None, bidirectional)`. -/
abbrev FactTuple := String × String × Option String × Bool

/-- The state of a `DataModel` that the views and `__eq__` depend on:
`self._objects` and `self._facts`, each `None` (unavailable) or a decoded
payload reduced to its top-level `data` array. -/
structure DataModel where
  objectsPayload : Option (List ObjEntry)
  factsPayload : Option (List FactEntry)
deriving DecidableEq, Repr

/-- Outcome of exhausting one of the generator properties: the values
yielded in order, whether iteration ended by raising (KeyError on a missing
`"name"`), and how many `"Nonetype"` diagnostics were printed for falsy
entries that were skipped. -/
structure GenOut (α : Type) where
  yields : List α
  raised : Bool
  logged : Nat
deriving DecidableEq, Repr

/-- `DataModel.objects` iterating over a `data` array: a falsy entry is
skipped with a printed diagnostic; a truthy entry without a `"name"` key
raises (ending the generator there); otherwise the name is yielded, even
when it is the empty string. -/
def objectsGen : List ObjEntry → GenOut String
  | [] => ⟨[], false, 0⟩
  | ObjEntry.falsy :: rest =>
    let o := objectsGen rest
    ⟨o.yields, o.raised, o.logged + 1⟩
  | ObjEntry.dict none :: _ => ⟨[], true, 0⟩
  | ObjEntry.dict (some n) :: rest =>
    let o := objectsGen rest
    ⟨n :: o.yields, o.raised, o.logged⟩

/-- `DataModel.facts` expanding one fact entry: a falsy entry is skipped with
a diagnostic; an entry whose binding list is falsy (empty) is skipped;
otherwise each binding yields one tuple. -/
def factsGen : List FactEntry → GenOut FactTuple
  | [] => ⟨[], false, 0⟩
  | FactEntry.falsy :: rest =>
    let o := factsGen rest
    ⟨o.yields, o.raised, o.logged + 1⟩
  | FactEntry.entry name bs :: rest =>
    let o := factsGen rest
    ⟨(if bs.isEmpty then [] else bs.map fun b => (name, b.source, b.dest, b.bidirectional))
       ++ o.yields, o.raised, o.logged⟩

/-- Full outcome of iterating the `objects` property: an unavailable (falsy)
payload produces nothing (`if not self._objects: return`). -/
def DataModel.objectsOut (m : DataModel) : GenOut String :=
  match m.objectsPayload with
  | none => ⟨[], false, 0⟩
  | some data => objectsGen data

/-- Full outcome of iterating the `facts` property. -/
def DataModel.factsOut (m : DataModel) : GenOut FactTuple :=
  match m.factsPayload with
  | none => ⟨[], false, 0⟩
  | some data => factsGen data

/-- The object-type names yielded by `objects` (before any raise). -/
def DataModel.objectNames (m : DataModel) : List String := m.objectsOut.yields

/-- Whether exhausting `objects` raises (a truthy entry lacking `"name"`). -/
def DataModel.objectsRaises (m : DataModel) : Bool := m.objectsOut.raised

/-- The fact-binding tuples yielded by `facts`. -/
def DataModel.factTuples (m : DataModel) : List FactTuple := m.factsOut.yields

/-- `DataModel.__eq__`:
`set(self.objects) == set(other.objects) and set(self.facts) == set(other.facts)`.
The value the comparison returns when materializing both generators
succeeds (neither raises). -/
def modelEq (a b : DataModel) : Bool :=
  decide (a.objectNames.toFinset = b.objectNames.toFinset) &&
    decide (a.factTuples.toFinset = b.factTuples.toFinset)

/-- Post-state of `DataModel.load`, given the two HTTP responses: the stored
payloads, `self.status`, and how many of the two GET requests were issued. -/
structure LoadResult where
  objectsPayload : Option (List ObjEntry)
  factsPayload : Option (List FactEntry)
  status : Option Nat
  callsMade : Nat
deriving DecidableEq, Repr

/-- `DataModel.load`, abstracting each `requests.get` as a pair of status
code and decoded `data` array.  The second request is only issued when the
first returned 200; any non-200 status sets both payloads to `None`, records
that status, and returns at once. -/
def load (r1 : Nat × List ObjEntry) (r2 : Nat × List FactEntry) : LoadResult :=
  if r1.1 = 200 then
    if r2.1 = 200 then ⟨some r1.2, some r2.2, some r2.1, 2⟩
    else ⟨none, none, some r2.1, 2⟩
  else ⟨none, none, some r1.1, 1⟩

/-- The `DataModel` state resulting from a `load`. -/
def LoadResult.model (l : LoadResult) : DataModel := ⟨l.objectsPayload, l.factsPayload⟩

/-- Python truthiness of the optional destination string: `not d` holds for
`None` and for the empty string. -/
def optFalsy : Option String → Bool
  | none => true
  | some s => s = ""

/-- A node declaration handed to graphviz: identifier, label, optional shape. -/
structure NodeDecl where
  id : String
  label : String
  shape : Option String
deriving DecidableEq, Repr

/-- An edge declaration handed to graphviz: tail, head, optional label, and
whether `dir="both"` was set. -/
structure EdgeDecl where
  src : String
  dst : String
  label : Option String
  both : Bool
deriving DecidableEq, Repr

/-- A graphviz `Digraph` as the sequence of node and edge statements issued
to it. -/
structure Graph where
  nodes : List NodeDecl
  edges : List EdgeDecl
deriving DecidableEq, Repr

/-- One iteration of the "Double edge facts" loop in `run`: skip the fact if
its name is `"mentions"` or its destination is falsy (`if not d`); otherwise
declare nodes for source and destination and add one edge labelled with the
fact name, `dir="both"` when bidirectional. -/
def doubleStep (g : Graph) (f : FactTuple) : Graph :=
  let (name, s, d, di) := f
  if name = "mentions" then g
  else if optFalsy d then g
  else
    let dv := d.getD ""
    ⟨g.nodes ++ [⟨s, s, none⟩, ⟨dv, dv, none⟩], g.edges ++ [⟨s, dv, some name, di⟩]⟩

/-- The "Double edge facts" graph built by `run` from the fact tuples. -/
def doubleGraph (facts : List FactTuple) : Graph := facts.foldl doubleStep ⟨[], []⟩

/-- One iteration of the "Single edge facts" loop in `run`: skip the fact if
its destination is truthy (`if d: continue`); otherwise declare a
diamond-shaped node for the fact name and a node for the source, and add one
unlabelled directed edge from source to fact name. -/
def singleStep (g : Graph) (f : FactTuple) : Graph :=
  let (name, s, d, _) := f
  if optFalsy d then
    ⟨g.nodes ++ [⟨name, name, some "diamond"⟩, ⟨s, s, none⟩],
      g.edges ++ [⟨s, name, none, false⟩]⟩
  else g

/-- The "Single edge facts" graph built by `run`. -/
def singleGraph (facts : List FactTuple) : Graph := facts.foldl singleStep ⟨[], []⟩

/-- One iteration of the "All Double edge facts" loop in `run`: like
`doubleStep` but without the `"mentions"` filter. -/
def completeStep (g : Graph) (f : FactTuple) : Graph :=
  let (name, s, d, di) := f
  if optFalsy d then g
  else
    let dv := d.getD ""
    ⟨g.nodes ++ [⟨s, s, none⟩, ⟨dv, dv, none⟩], g.edges ++ [⟨s, dv, some name, di⟩]⟩

/-- The "All Double edge facts" graph built by `run`: a node is first
declared for every entry of `objects`, then every fact with a truthy
destination contributes an edge. -/
def completeGraph (objs : List String) (facts : List FactTuple) : Graph :=
  facts.foldl completeStep ⟨objs.map fun o => ⟨o, o, none⟩, []⟩

/-- Observable actions of `run` after the fetch, in program order.
`printStatus` is the timestamped `"... Status code ..."` line,
`attemptRead` the `pickle.load(open("cache.dat", "rb"))` attempt,
`printFirstRun` the `"First run"` line, `printGraphing` the timestamped
`"... Graphing changes"` line, `writeSnapshot` the `pickle.dump` of the new
model, `buildGraph 0/1/2` the completed construction (and rendering) of the
double-edge, single-edge and complete graphs, and `raiseKeyError` an
uncaught `KeyError` escaping `run` (only `FileNotFoundError` is caught):
materializing `objects` raises when some truthy object entry lacks a
`"name"` key, either inside the `old_dm == dm` comparison or inside the
complete graph's `for obj in dm.objects` loop.  A step interrupted by the
raise does not appear as completed in the trace. -/
inductive Event where
  | printStatus : Option Nat → Event
  | attemptRead : Event
  | printFirstRun : Event
  | printGraphing : Event
  | writeSnapshot : Event
  | buildGraph : Nat → Event
  | raiseKeyError : Event
deriving DecidableEq, Repr

/-- What an invocation of `run` did: the event trace (ending in
`raiseKeyError` when the run crashed), the snapshot file content when the
run ended, and the three graphs when all three were built. -/
structure RunResult where
  events : List Event
  finalSnapshot : Option DataModel
  graphs : Option (Graph × Graph × Graph)
deriving DecidableEq, Repr

/-- The three graph projections `run` builds from a fetched model. -/
def graphsOf (dm : DataModel) : Graph × Graph × Graph :=
  (doubleGraph dm.factTuples, singleGraph dm.factTuples,
    completeGraph dm.objectNames dm.factTuples)

/-- `run` from the point where `dm.load()` has returned: `dm` is the freshly
fetched model, `status` is `dm.status`, and `snapshot` is the content of
`cache.dat` (`none` when the file does not exist).  A status other than 200
prints the status line and returns at once.  Otherwise the cached snapshot
is read and `old_dm == dm` evaluated: materializing `set(old_dm.objects)` or
`set(dm.objects)` raises KeyError when either side's `objects` raises, and
nothing is persisted.  An equal cached model ends the run; any other outcome
writes the new snapshot, then builds the double-edge and single-edge graphs,
then the complete graph — whose `for obj in dm.objects` node loop is the
first to iterate `objects` on the first-run path (absence of the snapshot
prints `"First run"` and skips the comparison), so a raising model crashes
there, after the snapshot write and the first two graphs. -/
def runAfterLoad (dm : DataModel) (status : Option Nat) (snapshot : Option DataModel) :
    RunResult :=
  if status ≠ some 200 then ⟨[Event.printStatus status], snapshot, none⟩
  else
    match snapshot with
    | some old =>
      if old.objectsRaises || dm.objectsRaises then
        ⟨[Event.attemptRead, Event.raiseKeyError], snapshot, none⟩
      else if modelEq old dm then ⟨[Event.attemptRead], snapshot, none⟩
      else
        ⟨[Event.attemptRead, Event.printGraphing, Event.writeSnapshot,
            Event.buildGraph 0, Event.buildGraph 1, Event.buildGraph 2],
          some dm, some (graphsOf dm)⟩
    | none =>
      if dm.objectsRaises then
        ⟨[Event.attemptRead, Event.printFirstRun, Event.printGraphing, Event.writeSnapshot,
            Event.buildGraph 0, Event.buildGraph 1, Event.raiseKeyError],
          some dm, none⟩
      else
        ⟨[Event.attemptRead, Event.printFirstRun, Event.printGraphing, Event.writeSnapshot,
            Event.buildGraph 0, Event.buildGraph 1, Event.buildGraph 2],
          some dm, some (graphsOf dm)⟩

/-- The value stored in `self.verify` by `DataModel.__init__`: Python's
`True`, `None`, or a CA-bundle path string. -/
inductive VerifyVal where
  | trueV : VerifyVal
  | noneV : VerifyVal
  | pathV : String → VerifyVal
deriving DecidableEq, Repr

/-- `DataModel.__init__`'s verify computation,
`self.verify = cacert if cacert != "" else True`, over the value actually
passed for `cacert` (`none` models Python `None`, which `run` passes when
`--cacert` is omitted). -/
def initVerify (cacert : Option String) : VerifyVal :=
  if cacert ≠ some "" then
    match cacert with
    | none => VerifyVal.noneV
    | some s => VerifyVal.pathV s
  else VerifyVal.trueV

/-- The `argparse` default of the `--cacert` option (`default=None`). -/
def cacertCliDefault : Option String := none

/-- Accessing the `objects` property: it builds a fresh generator over
`self._objects` and assigns nothing, so the model state is returned
unchanged alongside the yielded sequence. -/
def accessObjects (m : DataModel) : List String × DataModel := (m.objectNames, m)

/-- Accessing the `facts` property: fresh generator, no mutation. -/
def accessFacts (m : DataModel) : List FactTuple × DataModel := (m.factTuples, m)

/-- Node declarations one fact contributes to the double-edge graph:
nothing when the fact is named `"mentions"` or its destination is falsy
(absent or the empty string), else one node per endpoint, labelled with the
type name. -/
def doubleNodesOf (f : FactTuple) : List NodeDecl :=
  let (name, s, d, _) := f
  if name = "mentions" ∨ optFalsy d then []
  else [⟨s, s, none⟩, ⟨d.getD "", d.getD "", none⟩]

/-- Edge declarations one fact contributes to the double-edge graph:
nothing when named `"mentions"` or the destination is falsy, else exactly
one edge from source to destination labelled with the fact name, both-ended
exactly when the bidirectional flag is set. -/
def doubleEdgesOf (f : FactTuple) : List EdgeDecl :=
  let (name, s, d, di) := f
  if name = "mentions" ∨ optFalsy d then []
  else [⟨s, d.getD "", some name, di⟩]

/-- Node declarations one fact contributes to the single-edge graph:
nothing when the destination is truthy, else a diamond node for the fact
name and a node for the source type. -/
def singleNodesOf (f : FactTuple) : List NodeDecl :=
  let (name, s, d, _) := f
  if optFalsy d then [⟨name, name, some "diamond"⟩, ⟨s, s, none⟩] else []

/-- Edge declarations one fact contributes to the single-edge graph:
nothing when the destination is truthy, else one unlabelled forward edge
from the source type to the fact name. -/
def singleEdgesOf (f : FactTuple) : List EdgeDecl :=
  let (name, s, d, _) := f
  if optFalsy d then [⟨s, name, none, false⟩] else []

/-- Node declarations one fact contributes to the complete graph (beyond
the nodes declared for `objects`): like the double-edge graph, but with no
`"mentions"` filter. -/
def completeNodesOf (f : FactTuple) : List NodeDecl :=
  let (_, s, d, _) := f
  if optFalsy d then [] else [⟨s, s, none⟩, ⟨d.getD "", d.getD "", none⟩]

/-- Edge declarations one fact contributes to the complete graph. -/
def completeEdgesOf (f : FactTuple) : List EdgeDecl :=
  let (name, s, d, di) := f
  if optFalsy d then [] else [⟨s, d.getD "", some name, di⟩]

/-- A graph-building fold whose step appends per-fact node and edge
contributions produces the concatenation of those contributions. -/
theorem foldl_graph_spec (step : Graph → FactTuple → Graph)
    (nodesOf : FactTuple → List NodeDecl) (edgesOf : FactTuple → List EdgeDecl)
    (hstep : ∀ g f, step g f = ⟨g.nodes ++ nodesOf f, g.edges ++ edgesOf f⟩)
    (g : Graph) (fs : List FactTuple) :
    fs.foldl step g = ⟨g.nodes ++ fs.flatMap nodesOf, g.edges ++ fs.flatMap edgesOf⟩ := by
  induction fs generalizing g with
  | nil => simp
  | cons f fs ih =>
    rw [List.foldl_cons, hstep, ih]
    simp

/-- `doubleStep` appends exactly the per-fact contributions. -/
theorem doubleStep_eq (g : Graph) (f : FactTuple) :
    doubleStep g f = ⟨g.nodes ++ doubleNodesOf f, g.edges ++ doubleEdgesOf f⟩ := by
  obtain ⟨name, s, d, di⟩ := f
  by_cases h1 : name = "mentions" <;> by_cases h2 : optFalsy d = true <;>
    simp [doubleStep, doubleNodesOf, doubleEdgesOf, h1, h2]

/-- `singleStep` appends exactly the per-fact contributions. -/
theorem singleStep_eq (g : Graph) (f : FactTuple) :
    singleStep g f = ⟨g.nodes ++ singleNodesOf f, g.edges ++ singleEdgesOf f⟩ := by
  obtain ⟨name, s, d, di⟩ := f
  by_cases h : optFalsy d = true <;>
    simp [singleStep, singleNodesOf, singleEdgesOf, h]

/-- `completeStep` appends exactly the per-fact contributions. -/
theorem completeStep_eq (g : Graph) (f : FactTuple) :
    completeStep g f = ⟨g.nodes ++ completeNodesOf f, g.edges ++ completeEdgesOf f⟩ := by
  obtain ⟨name, s, d, di⟩ := f
  by_cases h : optFalsy d = true <;>
    simp [completeStep, completeNodesOf, completeEdgesOf, h]

/-- Exhausting the `objects` generator raises exactly when some truthy
entry lacks a `"name"` key. -/
theorem objectsGen_raised_iff (data : List ObjEntry) :
    (objectsGen data).raised = false ↔ ObjEntry.dict none ∉ data := by
  induction data with
  | nil => simp [objectsGen]
  | cons e rest ih =>
    match e with
    | ObjEntry.falsy => simp [objectsGen, ih]
    | ObjEntry.dict none => simp [objectsGen]
    | ObjEntry.dict (some n) => simp [objectsGen, ih]

/-- When no entry raises, `objects` yields precisely the name of every
truthy entry, in order, and skips the falsy ones. -/
theorem objectsGen_yields (data : List ObjEntry)
    (h : (objectsGen data).raised = false) :
    (objectsGen data).yields =
      data.filterMap (fun e => match e with
        | ObjEntry.falsy => none
        | ObjEntry.dict n => n) := by
  induction data with
  | nil => simp [objectsGen]
  | cons e rest ih =>
    match e with
    | ObjEntry.falsy =>
      simp only [objectsGen] at h ⊢
      simp [ih h]
    | ObjEntry.dict none => simp [objectsGen] at h
    | ObjEntry.dict (some n) =>
      simp only [objectsGen] at h ⊢
      simp [ih h]

/-- When no entry raises, exactly the falsy entries are logged. -/
theorem objectsGen_logged (data : List ObjEntry)
    (h : (objectsGen data).raised = false) :
    (objectsGen data).logged = data.countP (fun e => e = ObjEntry.falsy) := by
  induction data with
  | nil => simp [objectsGen]
  | cons e rest ih =>
    match e with
    | ObjEntry.falsy =>
      simp only [objectsGen] at h ⊢
      simp [ih h, List.countP_cons]
    | ObjEntry.dict none => simp [objectsGen] at h
    | ObjEntry.dict (some n) =>
      simp only [objectsGen] at h ⊢
      simp [ih h, List.countP_cons]

/-- A model whose object payload lists `"a"` twice and whose fact payload
lists one binding once. -/
def dmDupA : DataModel :=
  ⟨some [ObjEntry.dict (some "a"), ObjEntry.dict (some "b"), ObjEntry.dict (some "a")],
    some [FactEntry.entry "f" [⟨"s", none, false⟩]]⟩

/-- A model with the same object-name set as `dmDupA` in another order and
without duplicates, and the same binding listed twice. -/
def dmDupB : DataModel :=
  ⟨some [ObjEntry.dict (some "b"), ObjEntry.dict (some "a")],
    some [FactEntry.entry "f" [⟨"s", none, false⟩, ⟨"s", none, false⟩]]⟩

/-- C1: provided materializing either side's `objects` does not raise,
`DataModel.__eq__` returns true exactly when the de-duplicated set of object
names and the de-duplicated set of fact-binding tuples both coincide; in
particular it is reflexive, and insensitive to ordering and duplicates in
the raw payloads (only the two `toFinset`s matter). -/
theorem modelEq_set_characterization (A B : DataModel)
    (hA : A.objectsRaises = false) (hB : B.objectsRaises = false) :
    (modelEq A B = true ↔
      A.objectNames.toFinset = B.objectNames.toFinset ∧
      A.factTuples.toFinset = B.factTuples.toFinset) ∧
    modelEq A A = true := by
  constructor
  · simp [modelEq]
  · simp [modelEq]

/-- C1 witness: two models whose payloads differ in order and duplication
but collapse to the same sets compare equal. -/
theorem modelEq_set_characterization_witness :
    dmDupA.objectsRaises = false ∧ dmDupB.objectsRaises = false ∧
    modelEq dmDupA dmDupB = true :=
  ⟨by decide, by decide,
    ((modelEq_set_characterization dmDupA dmDupB (by decide) (by decide)).1).mpr (by decide)⟩

/-- C2: when either catalog request returns a status other than 200 — in
particular when the first succeeded and the second failed — `load` leaves
both payloads `None`, records the failing call's status (never 200), makes
no further request after a first-call failure, and the resulting model's
`objects` and `facts` views are empty. -/
theorem load_failure_poisons (r1 : Nat × List ObjEntry) (r2 : Nat × List FactEntry)
    (h : r1.1 ≠ 200 ∨ r2.1 ≠ 200) :
    (load r1 r2).objectsPayload = none ∧
    (load r1 r2).factsPayload = none ∧
    (load r1 r2).status ≠ some 200 ∧
    (if r1.1 = 200 then (load r1 r2).status = some r2.1
      else (load r1 r2).status = some r1.1 ∧ (load r1 r2).callsMade = 1) ∧
    (load r1 r2).model.objectNames = [] ∧
    (load r1 r2).model.factTuples = [] := by
  by_cases h1 : r1.1 = 200
  · have h2 : r2.1 ≠ 200 := by
      rcases h with h | h
      · exact absurd h1 h
      · exact h
    simp [load, h1, h2, LoadResult.model, DataModel.objectNames, DataModel.factTuples,
      DataModel.objectsOut, DataModel.factsOut]
  · simp [load, h1, LoadResult.model, DataModel.objectNames, DataModel.factTuples,
      DataModel.objectsOut, DataModel.factsOut]

/-- C2 witness: first call succeeds, second returns 404. -/
theorem load_failure_poisons_witness :
    (404 : Nat) ≠ 200 ∧
    (load (200, []) (404, [])).objectsPayload = none ∧
    (load (200, []) (404, [])).status = some 404 ∧
    (load (200, []) (404, [])).model.factTuples = [] := by
  have h := load_failure_poisons (200, []) (404, []) (Or.inr (by decide))
  refine ⟨by decide, h.1, ?_, h.2.2.2.2.2⟩
  simpa using h.2.2.2.1

/-- C3: with any fetch status other than 200, `run` prints the timestamped
status line and stops: the cached snapshot is neither read nor compared, no
snapshot is written, no graph is built, and the snapshot file's content is
unchanged. -/
theorem run_fetch_failure_halts (dm : DataModel) (status : Option Nat)
    (snap : Option DataModel) (h : status ≠ some 200) :
    runAfterLoad dm status snap = ⟨[Event.printStatus status], snap, none⟩ ∧
    Event.attemptRead ∉ (runAfterLoad dm status snap).events ∧
    Event.writeSnapshot ∉ (runAfterLoad dm status snap).events ∧
    (∀ k, Event.buildGraph k ∉ (runAfterLoad dm status snap).events) ∧
    (runAfterLoad dm status snap).finalSnapshot = snap ∧
    (runAfterLoad dm status snap).graphs = none := by
  simp [runAfterLoad, h]

/-- C3 witness: a 404 fetch with an existing snapshot leaves it untouched. -/
theorem run_fetch_failure_halts_witness :
    (some 404 : Option Nat) ≠ some 200 ∧
    runAfterLoad ⟨none, none⟩ (some 404) (some dmDupA) =
      ⟨[Event.printStatus (some 404)], some dmDupA, none⟩ :=
  ⟨by decide, (run_fetch_failure_halts ⟨none, none⟩ (some 404) (some dmDupA) (by decide)).1⟩

/-- C4: after a 200 fetch, for models on which materializing `objects` does
not raise (the same honest guard as the `__eq__` characterization; a
raising model instead crashes the run with an uncaught KeyError) — with no
prior snapshot the run prints `"First run"`, writes the new snapshot and
then builds the three graphs, whatever the payloads; with a prior snapshot
equal to the fetched model the run ends after the read, building nothing
and leaving the snapshot as it was; otherwise it writes the new model as
the snapshot strictly before the three graph constructions (the event trace
is write, then the graphs). -/
theorem run_snapshot_logic (dm old : DataModel)
    (hdm : dm.objectsRaises = false) (hold : old.objectsRaises = false) :
    runAfterLoad dm (some 200) none =
      ⟨[Event.attemptRead, Event.printFirstRun, Event.printGraphing, Event.writeSnapshot,
          Event.buildGraph 0, Event.buildGraph 1, Event.buildGraph 2],
        some dm, some (graphsOf dm)⟩ ∧
    (modelEq old dm = true →
      runAfterLoad dm (some 200) (some old) = ⟨[Event.attemptRead], some old, none⟩) ∧
    (modelEq old dm = false →
      runAfterLoad dm (some 200) (some old) =
        ⟨[Event.attemptRead, Event.printGraphing, Event.writeSnapshot,
            Event.buildGraph 0, Event.buildGraph 1, Event.buildGraph 2],
          some dm, some (graphsOf dm)⟩) := by
  refine ⟨by simp [runAfterLoad, hdm], fun h => ?_, fun h => ?_⟩
  · simp [runAfterLoad, hdm, hold, h]
  · simp [runAfterLoad, hdm, hold, h]

/-- C4 witness: two non-raising models with equal payload sets end the run
with no graph work and the snapshot intact. -/
theorem run_snapshot_logic_witness :
    dmDupB.objectsRaises = false ∧ dmDupA.objectsRaises = false ∧
    modelEq dmDupA dmDupB = true ∧
    runAfterLoad dmDupB (some 200) (some dmDupA) =
      ⟨[Event.attemptRead], some dmDupA, none⟩ :=
  ⟨by decide, by decide, by decide,
    (run_snapshot_logic dmDupB dmDupA (by decide) (by decide)).2.1 (by decide)⟩

/-- C5 counterexample: the binding `("f", "s", some "", false)` is not named
`"mentions"` and its destination type is present (a truthy
`destinationObjectType` whose name is the empty string), so the claim
requires nodes for `"s"` and `""` and one labelled edge between them; the
code's truthiness test `if not d: continue` treats the empty destination
name as absent and the binding contributes nothing at all. -/
theorem doubleGraph_presentEmptyDest_cex :
    ("f" : String) ≠ "mentions" ∧ (some "" : Option String) ≠ none ∧
    doubleGraph [("f", "s", some "", false)] = ⟨[], []⟩ ∧
    (doubleGraph [("f", "s", some "", false)]).edges ≠
      [⟨"s", "", some "f", false⟩] := by decide

/-- C5 (amended): in the double-edge graph every fact binding contributes
nothing when its name is `"mentions"` or its destination is absent or the
empty string; every other binding declares nodes for its source and
destination type names (labelled with the type name) and exactly one edge
from source to destination labelled with the fact name, both-ended exactly
when the bidirectional flag is set; the whole graph is the concatenation of
these per-binding contributions.  The `resolvesTo` scenario follows. -/
theorem doubleGraph_spec (facts : List FactTuple) :
    (doubleGraph facts).nodes = facts.flatMap doubleNodesOf ∧
    (doubleGraph facts).edges = facts.flatMap doubleEdgesOf ∧
    doubleGraph [("resolvesTo", "host", some "ip", false)] =
      ⟨[⟨"host", "host", none⟩, ⟨"ip", "ip", none⟩],
        [⟨"host", "ip", some "resolvesTo", false⟩]⟩ := by
  have h := foldl_graph_spec doubleStep doubleNodesOf doubleEdgesOf doubleStep_eq ⟨[], []⟩ facts
  exact ⟨by simp [doubleGraph, h], by simp [doubleGraph, h], by decide⟩

/-- C6 counterexample: the binding `("f", "s", some "", false)` has a
present destination type (named by the empty string), so the claim requires
it to contribute nothing to the single-edge graph; the code's truthiness
test `if d: continue` does not skip it, and it contributes the diamond
fact-name node, the source node, and an edge. -/
theorem singleGraph_presentEmptyDest_cex :
    (some "" : Option String) ≠ none ∧
    singleGraph [("f", "s", some "", false)] =
      ⟨[⟨"f", "f", some "diamond"⟩, ⟨"s", "s", none⟩],
        [⟨"s", "f", none, false⟩]⟩ ∧
    singleGraph [("f", "s", some "", false)] ≠ ⟨[], []⟩ := by decide

/-- C6 (amended): in the single-edge graph every fact binding whose
destination type is present with a non-empty name contributes nothing;
every binding whose destination is absent or named by the empty string
declares a diamond-shaped node for the fact name and a node for the source
type, and adds one unlabelled directed edge from the source-type node to
the fact-name node; the whole graph is the concatenation of these
per-binding contributions.  The `hasAttribute` scenario follows. -/
theorem singleGraph_spec (facts : List FactTuple) :
    (singleGraph facts).nodes = facts.flatMap singleNodesOf ∧
    (singleGraph facts).edges = facts.flatMap singleEdgesOf ∧
    singleGraph [("hasAttribute", "host", none, false)] =
      ⟨[⟨"hasAttribute", "hasAttribute", some "diamond"⟩, ⟨"host", "host", none⟩],
        [⟨"host", "hasAttribute", none, false⟩]⟩ ∧
    doubleGraph [("hasAttribute", "host", none, false)] = ⟨[], []⟩ := by
  have h := foldl_graph_spec singleStep singleNodesOf singleEdgesOf singleStep_eq ⟨[], []⟩ facts
  exact ⟨by simp [singleGraph, h], by simp [singleGraph, h], by decide, by decide⟩

/-- C7 counterexample: the binding `("f", "s", some "", false)` has a
present destination type (named by the empty string), so the claim requires
an edge in the complete graph; the code's `if not d: continue` skips it and
the complete graph stays empty. -/
theorem completeGraph_presentEmptyDest_cex :
    (some "" : Option String) ≠ none ∧
    completeGraph [] [("f", "s", some "", false)] = ⟨[], []⟩ ∧
    (completeGraph [] [("f", "s", some "", false)]).edges ≠
      [⟨"s", "", some "f", false⟩] := by decide

/-- C7 (amended): the complete graph first declares one node per entry of
`objects` (so isolated object types appear), then every fact binding whose
destination is present with a non-empty name — `"mentions"` included — adds
its endpoint nodes and one edge labelled with the fact name, both-ended
exactly when bidirectional; bindings whose destination is absent or empty
add nothing.  A concrete `"mentions"` binding does produce its edge. -/
theorem completeGraph_spec (objs : List String) (facts : List FactTuple) :
    (completeGraph objs facts).nodes =
      (objs.map fun o => ⟨o, o, none⟩) ++ facts.flatMap completeNodesOf ∧
    (completeGraph objs facts).edges = facts.flatMap completeEdgesOf ∧
    (completeGraph [] [("mentions", "a", some "b", true)]).edges =
      [⟨"a", "b", some "mentions", true⟩] := by
  have h := foldl_graph_spec completeStep completeNodesOf completeEdgesOf completeStep_eq
    ⟨objs.map fun o => ⟨o, o, none⟩, []⟩ facts
  exact ⟨by simp [completeGraph, h], by simp [completeGraph, h], by decide⟩

/-- C8 counterexample: a truthy entry whose `"name"` field holds the empty
string (a falsy name) is yielded by `objects`, not skipped; and a truthy
entry with no `"name"` field makes `objects` raise, refuting the claim that
`objects` never raises. -/
theorem objects_yield_raise_cex :
    (⟨some [ObjEntry.dict (some "")], none⟩ : DataModel).objectNames = [""] ∧
    (⟨some [ObjEntry.dict (some "")], none⟩ : DataModel).objectNames ≠ [] ∧
    (⟨some [ObjEntry.dict none], none⟩ : DataModel).objectsRaises = true := by decide

/-- C8 (amended): `objects` produces the empty sequence, without raising,
when the backing payload is unavailable; iteration raises exactly when some
truthy entry lacks a `"name"` field; when nothing raises, exactly the falsy
entries (null/empty) are skipped — each logged as an anomaly — and every
truthy entry's name is yielded, even when that name is falsy. -/
theorem objects_total_behavior (m : DataModel) (data : List ObjEntry) :
    (m.objectsPayload = none → m.objectNames = [] ∧ m.objectsRaises = false) ∧
    ((objectsGen data).raised = false ↔ ObjEntry.dict none ∉ data) ∧
    ((objectsGen data).raised = false →
      (objectsGen data).yields = data.filterMap (fun e => match e with
        | ObjEntry.falsy => none
        | ObjEntry.dict n => n) ∧
      (objectsGen data).logged = data.countP (fun e => e = ObjEntry.falsy)) := by
  refine ⟨fun h => ?_, objectsGen_raised_iff data,
    fun h => ⟨objectsGen_yields data h, objectsGen_logged data h⟩⟩
  simp [DataModel.objectNames, DataModel.objectsRaises, DataModel.objectsOut, h]

/-- C8 witness: an unavailable payload gives the empty view, and a payload
with one falsy and one named entry yields exactly the name. -/
theorem objects_total_behavior_witness :
    (⟨none, none⟩ : DataModel).objectNames = [] ∧
    (objectsGen [ObjEntry.falsy, ObjEntry.dict (some "x")]).raised = false ∧
    (objectsGen [ObjEntry.falsy, ObjEntry.dict (some "x")]).yields = ["x"] := by
  have h := objects_total_behavior ⟨none, none⟩ [ObjEntry.falsy, ObjEntry.dict (some "x")]
  refine ⟨(h.1 rfl).1, h.2.1.mpr (by decide), ?_⟩
  exact ((h.2.2 (h.2.1.mpr (by decide))).1).trans (by decide)

/-- C9: the `objects` and `facts` properties are pure restartable views:
accessing one leaves the model unchanged, and accessing it again — in any
interleaving — yields the same sequence. -/
theorem views_pure (m : DataModel) :
    (accessObjects m).2 = m ∧ (accessFacts m).2 = m ∧
    (accessObjects (accessObjects m).2).1 = (accessObjects m).1 ∧
    (accessFacts (accessFacts m).2).1 = (accessFacts m).1 ∧
    (accessObjects (accessFacts m).2).1 = (accessObjects m).1 ∧
    (accessFacts (accessObjects m).2).1 = (accessFacts m).1 :=
  ⟨rfl, rfl, rfl, rfl, rfl, rfl⟩

/-- C10: constructing a `DataModel` with `cacert=None` — which `run` passes
whenever `--cacert` is omitted, the option's default being `None` — stores
`None` in `self.verify`, not the system default `True`; `True` is stored
only for the constructor's own default, the exact empty string. -/
theorem verify_cli_default :
    initVerify cacertCliDefault = VerifyVal.noneV ∧
    initVerify cacertCliDefault ≠ VerifyVal.trueV ∧
    (∀ c : Option String, initVerify c = VerifyVal.trueV ↔ c = some "") := by
  refine ⟨by decide, by decide, fun c => ?_⟩
  match c with
  | none => simp [initVerify]
  | some s =>
    by_cases h : s = "" <;> simp [initVerify, h]

/-- C10 witness: the empty string maps to `True`, the CLI default to `None`. -/
theorem verify_cli_default_witness :
    initVerify (some "") = VerifyVal.trueV ∧ initVerify cacertCliDefault = VerifyVal.noneV :=
  ⟨(verify_cli_default.2.2 (some "")).mpr rfl, verify_cli_default.1⟩

end GraphDatamodel
